import Mathlib

set_option maxRecDepth 100000

/-!
Shallow embedding of the Culinary Compass client (src/src/App.jsx).

The embedded code is the orchestration logic of the single React component:
the submit handler `handleGetGuide` (its synchronous part and the
continuation that runs when its `fetch` resolves) and the chained
`handleGenerateImage` (its synchronous part and its resolution
continuation). React state (`location`, `guide`, `loading`, `error`,
`imageUrl`, `isImageLoading`) is modelled as an explicit record, and the
asynchronous interleaving as a small-step relation on a world holding the
app state plus the lists of in-flight guide and image requests.

JavaScript values produced by `response.json()` and `JSON.parse` are
modelled by the inductive `Json`; numbers are modelled as integers (no
claim depends on float semantics). `JSON.parse` is a JS builtin, modelled
here by an executable recursive-descent parser over the common JSON
fragment (integer numbers, the usual escape sequences); inputs outside
that fragment are treated as parse failures, which only narrows the
modelled environment and is not exercised by any claim.
-/

namespace CulinaryCompass

/-- Model of a JavaScript value obtained from parsed JSON. Numbers are
modelled as integers; no claim depends on fractional or float behaviour. -/
inductive Json where
  | null : Json
  | bool (b : Bool) : Json
  | num (n : Int) : Json
  | str (s : String) : Json
  | arr (elems : List Json) : Json
  | obj (fields : List (String × Json)) : Json
deriving Repr

/-- Truthiness of a JavaScript value, as used by the `if (!x)` and
`if (x)` checks in App.jsx. `undefined` is modelled as `Option.none` at
use sites (see `truthyOpt`). -/
def Json.truthy : Json → Bool
  | .null => false
  | .bool b => b
  | .num n => n != 0
  | .str s => s != ""
  | .arr _ => true
  | .obj _ => true

/-- Truthiness of a possibly-undefined JavaScript value. -/
def truthyOpt : Option Json → Bool
  | none => false
  | some v => v.truthy

/-- Property access `v.k` on a parsed-JSON value: objects yield their
field, anything else yields `undefined`. In App.jsx every such access on
a possibly-null base is behind optional chaining (which yields
`undefined`) or inside the `try` block whose `catch` coincides, state-wise,
with the corresponding failure branch modelled here. -/
def Json.getField : Json → String → Option Json
  | .obj fs, k => (fs.find? (fun p => p.fst == k)).map Prod.snd
  | _, _ => none

/-- Index access `v[i]` on a parsed-JSON value: arrays index their
elements, strings index their characters (yielding one-character strings,
as in JS), objects look up the stringified index as a key, and anything
else yields `undefined`. -/
def Json.index : Json → Nat → Option Json
  | .arr xs, i => xs.get? i
  | .str s, i => (s.data.get? i).map (fun c => .str (String.mk [c]))
  | .obj fs, i => Json.getField (.obj fs) (toString i)
  | _, _ => none

/-- The JavaScript `.length` property: arrays and strings report their
length, objects may carry an explicit `length` field, anything else
yields `undefined`. -/
def Json.lengthProp : Json → Option Json
  | .arr xs => some (.num xs.length)
  | .str s => some (.num s.length)
  | .obj fs => Json.getField (.obj fs) "length"
  | _ => none

/-- The JavaScript comparison `x > 0` with its numeric coercions:
numbers compare directly, `true` coerces to 1, numeric strings coerce via
parsing, everything else (including `undefined`) compares false. -/
def jsGtZero : Option Json → Bool
  | some (.num n) => n > 0
  | some (.bool b) => b
  | some (.str s) =>
    match s.toInt? with
    | some n => n > 0
    | none => false
  | _ => false

mutual

/-- JavaScript string coercion (`String(v)` / template literals): used by
App.jsx when interpolating values into strings and, in the model, as the
argument coercion of `JSON.parse`. Arrays join their coerced elements with
commas as in JS. -/
def Json.jsToString : Json → String
  | .null => "null"
  | .bool true => "true"
  | .bool false => "false"
  | .num n => toString n
  | .str s => s
  | .arr xs => String.intercalate "," (jsToStringList xs)
  | .obj _ => "[object Object]"

/-- Pointwise string coercion of a list of values. -/
def jsToStringList : List Json → List String
  | [] => []
  | x :: xs => x.jsToString :: jsToStringList xs

end

/-- Opening brace character, written numerically. -/
def lbrace : Char := Char.ofNat 123

/-- Closing brace character, written numerically. -/
def rbrace : Char := Char.ofNat 125

/-- JSON escape sequences after a backslash. `\u` sequences are outside
the modelled fragment (treated as parse failure). -/
def escChar : Char → Option Char
  | '\"' => some '\"'
  | '\\' => some '\\'
  | '/' => some '/'
  | 'n' => some '\n'
  | 't' => some '\t'
  | 'r' => some '\r'
  | 'b' => some (Char.ofNat 8)
  | 'f' => some (Char.ofNat 12)
  | _ => none

/-- Body of a JSON string literal, after the opening quote: returns the
decoded characters and the remaining input past the closing quote. -/
def parseStringBody : List Char → Option (List Char × List Char)
  | [] => none
  | c :: cs =>
    if c = '\"' then some ([], cs)
    else if c = '\\' then
      match cs with
      | [] => none
      | e :: cs2 =>
        match escChar e with
        | none => none
        | some ec =>
          match parseStringBody cs2 with
          | none => none
          | some (acc, rest) => some (ec :: acc, rest)
    else
      match parseStringBody cs with
      | none => none
      | some (acc, rest) => some (c :: acc, rest)

/-- Skip JSON whitespace. -/
def skipWs : List Char → List Char
  | [] => []
  | c :: cs => if c = ' ' ∨ c = '\n' ∨ c = '\t' ∨ c = '\r' then skipWs cs else c :: cs

/-- Match an expected literal character sequence. -/
def expectChars : List Char → List Char → Option (List Char)
  | [], cs => some cs
  | p :: ps, c :: cs => if c = p then expectChars ps cs else none
  | _ :: _, [] => none

/-- An integer JSON number: optional minus sign followed by digits. -/
def parseNumberBody (cs : List Char) : Option (Int × List Char) :=
  let negAndRest : Bool × List Char :=
    match cs with
    | c :: rest => if c = '-' then (true, rest) else (false, cs)
    | [] => (false, [])
  let digs := negAndRest.2.takeWhile Char.isDigit
  let rest := negAndRest.2.dropWhile Char.isDigit
  if digs.isEmpty then none
  else
    let n : Nat := digs.foldl (fun acc c => acc * 10 + (c.toNat - 48)) 0
    some (if negAndRest.1 then -(n : Int) else (n : Int), rest)

mutual

/-- Fuel-indexed recursive-descent parser for one JSON value. -/
def parseValue : Nat → List Char → Option (Json × List Char)
  | 0, _ => none
  | Nat.succ fuel, input =>
    match skipWs input with
    | [] => none
    | c :: rest =>
      if c = '\"' then
        match parseStringBody rest with
        | some (chars, rest2) => some (.str (String.mk chars), rest2)
        | none => none
      else if c = lbrace then
        match skipWs rest with
        | c2 :: rest2 =>
          if c2 = rbrace then some (.obj [], rest2)
          else
            match parseMembers fuel (c2 :: rest2) with
            | some (fs, rest3) => some (.obj fs, rest3)
            | none => none
        | [] => none
      else if c = '[' then
        match skipWs rest with
        | c2 :: rest2 =>
          if c2 = ']' then some (.arr [], rest2)
          else
            match parseElements fuel (c2 :: rest2) with
            | some (xs, rest3) => some (.arr xs, rest3)
            | none => none
        | [] => none
      else if c = 't' then
        match expectChars ['r', 'u', 'e'] rest with
        | some rest2 => some (.bool true, rest2)
        | none => none
      else if c = 'f' then
        match expectChars ['a', 'l', 's', 'e'] rest with
        | some rest2 => some (.bool false, rest2)
        | none => none
      else if c = 'n' then
        match expectChars ['u', 'l', 'l'] rest with
        | some rest2 => some (.null, rest2)
        | none => none
      else
        match parseNumberBody (c :: rest) with
        | some (n, rest2) => some (.num n, rest2)
        | none => none

/-- One or more `"key": value` members of a JSON object, up to and past
the closing brace. -/
def parseMembers : Nat → List Char → Option (List (String × Json) × List Char)
  | 0, _ => none
  | Nat.succ fuel, input =>
    match skipWs input with
    | c :: rest =>
      if c = '\"' then
        match parseStringBody rest with
        | some (keyChars, rest2) =>
          (match skipWs rest2 with
           | c2 :: rest3 =>
             if c2 = ':' then
               match parseValue fuel rest3 with
               | some (v, rest4) =>
                 (match skipWs rest4 with
                  | c3 :: rest5 =>
                    if c3 = ',' then
                      match parseMembers fuel rest5 with
                      | some (fs, rest6) => some ((String.mk keyChars, v) :: fs, rest6)
                      | none => none
                    else if c3 = rbrace then some ([(String.mk keyChars, v)], rest5)
                    else none
                  | [] => none)
               | none => none
             else none
           | [] => none)
        | none => none
      else none
    | [] => none

/-- One or more elements of a JSON array, up to and past the closing
bracket. -/
def parseElements : Nat → List Char → Option (List Json × List Char)
  | 0, _ => none
  | Nat.succ fuel, input =>
    match parseValue fuel input with
    | some (v, rest) =>
      (match skipWs rest with
       | c :: rest2 =>
         if c = ',' then
           match parseElements fuel rest2 with
           | some (xs, rest3) => some (v :: xs, rest3)
           | none => none
         else if c = ']' then some ([v], rest2)
         else none
       | [] => none)
    | none => none

end

/-- Model of the JS builtin `JSON.parse` on the modelled fragment:
`none` corresponds to a thrown `SyntaxError`. -/
def jsonParse (s : String) : Option Json :=
  match parseValue (2 * s.length + 2) s.data with
  | some (v, rest) => if (skipWs rest).isEmpty then some v else none
  | none => none

/-- The user-facing message set by the empty-location early return
(App.jsx line 143). -/
def emptyQueryMessage : String := "Please enter a country or city."

/-- The single user-facing message set by the catch block of
handleGetGuide (App.jsx line 205), shared by every thrown guide-stage
failure. -/
def guideFailureMessage : String := "Could not fetch the guide. The Culinary Compass is recalibrating!"

/-- Internal guide-stage failure conditions. In App.jsx they are
distinguishable as the early-return path and the distinct thrown Error
messages (lines 143, 182, 189, 193 and the JSON.parse SyntaxError of
line 195); the user never sees the distinction. -/
inductive GuideError where
  | emptyQuery : GuideError
  | missingCredential : GuideError
  | requestFailed (status : Nat) : GuideError
  | malformedResponse : GuideError
  | invalidGuidePayload : GuideError
deriving Repr, DecidableEq

/-- Internal image-stage failure conditions (App.jsx lines 118 and 126),
only ever logged to the console. -/
inductive ImageError where
  | requestFailed (status : Nat) : ImageError
  | invalidImagePayload : ImageError
deriving Repr, DecidableEq

/-- Resolution of a `fetch` call: `httpError` is a response with
`response.ok` false carrying its status; `ok` is a successful response
carrying the value produced by `response.json()`. -/
inductive FetchOutcome where
  | httpError (status : Nat) : FetchOutcome
  | ok (body : Json) : FetchOutcome
deriving Repr

/-- The React state of the App component (App.jsx lines 87-97). -/
structure AppState where
  location : String
  guide : Option Json
  loading : Bool
  error : Option String
  imageUrl : Option String
  isImageLoading : Bool
deriving Repr

/-- The initial React state (all useState initializers). -/
def initialState : AppState :=
  { location := "", guide := none, loading := false, error := none,
    imageUrl := none, isImageLoading := false }

/-- Truthiness of the module-scope `apiKey` (App.jsx line 83): a missing
environment variable is `undefined` (`none`), and an empty string is also
falsy under the `if (!apiKey)` check of line 182. -/
def keyPresent : Option String → Bool
  | none => false
  | some k => k != ""

/-- The optional-chaining extraction
`result.candidates?.[0]?.content?.parts?.[0]?.text` of App.jsx line 192. -/
def extractGuideText (result : Json) : Option Json :=
  (((((result.getField "candidates").bind (fun v => v.index 0)).bind
    (fun v => v.getField "content")).bind (fun v => v.getField "parts")).bind
    (fun v => v.index 0)).bind (fun v => v.getField "text")

/-- Outcome of the guide-fetch continuation (App.jsx lines 189-195): a
non-ok status throws (requestFailed); a missing or falsy nested text
payload throws (malformedResponse); a text payload that JSON.parse
rejects throws a SyntaxError (invalidGuidePayload); otherwise the parsed
value is returned. All three throws land in the same catch block. -/
def processGuideResponse : FetchOutcome → Except GuideError Json
  | .httpError status => .error (.requestFailed status)
  | .ok body =>
    match extractGuideText body with
    | none => .error .malformedResponse
    | some t =>
      if t.truthy then
        match jsonParse t.jsToString with
        | none => .error .invalidGuidePayload
        | some parsed => .ok parsed
      else .error .malformedResponse

/-- State mutation when a guide fetch resolves (App.jsx lines 189-208).
On success the parsed value is stored as the guide unconditionally and,
if `parsedGuide.imageGenPrompt` is truthy, `handleGenerateImage` starts:
its synchronous prelude (lines 103-104) sets `isImageLoading` and clears
`imageUrl`, and the issued image request is returned as the second
component, carrying the prompt value. On any failure the catch block
sets the generic error message. The finally block clears `loading`
either way. -/
def applyGuideResolution (outcome : FetchOutcome) (s : AppState) : AppState × Option Json :=
  match processGuideResponse outcome with
  | .ok parsed =>
    let s1 := { s with guide := some parsed, loading := false }
    match parsed.getField "imageGenPrompt" with
    | some p =>
      if p.truthy then
        ({ s1 with isImageLoading := true, imageUrl := none }, some p)
      else (s1, none)
    | none => (s1, none)
  | .error _ => ({ s with error := some guideFailureMessage, loading := false }, none)

/-- Outcome of the image-fetch continuation (App.jsx lines 118-127): a
non-ok status throws (requestFailed); a response body passing the
truthiness checks on `predictions`, its length and
`predictions[0].bytesBase64Encoded` yields the data URL; anything else
throws (invalidImagePayload). -/
def processImageResponse : FetchOutcome → Except ImageError String
  | .httpError status => .error (.requestFailed status)
  | .ok body =>
    match body.getField "predictions" with
    | none => .error .invalidImagePayload
    | some preds =>
      if preds.truthy && jsGtZero preds.lengthProp &&
          truthyOpt ((preds.index 0).bind (fun p => p.getField "bytesBase64Encoded")) then
        match (preds.index 0).bind (fun p => p.getField "bytesBase64Encoded") with
        | some b => .ok ("data:image/png;base64," ++ b.jsToString)
        | none => .error .invalidImagePayload
      else .error .invalidImagePayload

/-- State mutation when an image fetch resolves (App.jsx lines 118-134):
on success `imageUrl` is set to the data URL; on failure the catch block
only logs. The finally block clears `isImageLoading` either way, and no
other field is touched. -/
def applyImageResolution (outcome : FetchOutcome) (s : AppState) : AppState :=
  match processImageResponse outcome with
  | .ok url => { s with imageUrl := some url, isImageLoading := false }
  | .error _ => { s with isImageLoading := false }

/-- What a call of `handleGetGuide` does synchronously: either it fails
before any fetch (with the internal condition recorded), or it issues the
guide fetch for the submitted location and suspends. -/
inductive SubmitEffect where
  | failed (e : GuideError) : SubmitEffect
  | requested (query : String) : SubmitEffect
deriving Repr, DecidableEq

/-- Synchronous part of `handleGetGuide` (App.jsx lines 140-188): the
empty-location early return (`!location` is true exactly for the empty
string — no trimming is performed), then the state reset (loading, error,
guide, imageUrl — note `isImageLoading` is not reset), then either the
missing-key throw (caught, generic message set, finally clears loading)
or the issued guide fetch, which leaves the handler suspended with
`loading` still true. -/
def handleGetGuideSync (apiKey : Option String) (s : AppState) : AppState × SubmitEffect :=
  if s.location = "" then
    ({ s with error := some emptyQueryMessage }, .failed .emptyQuery)
  else
    let s1 := { s with loading := true, error := none, guide := none, imageUrl := none }
    if keyPresent apiKey then
      (s1, .requested s.location)
    else
      ({ s1 with error := some guideFailureMessage, loading := false }, .failed .missingCredential)

/-- An in-flight guide request: the location it was issued for and the
sequence number of the submit that issued it (for phrasing staleness). -/
structure PendingGuide where
  query : String
  seq : Nat
deriving Repr, DecidableEq

/-- An in-flight image request, carrying the prompt value passed to
`handleGenerateImage`. -/
structure PendingImage where
  prompt : Json
deriving Repr

/-- A world of the interleaving semantics: the React state plus the
in-flight requests and a counter numbering request-issuing submits. -/
structure World where
  app : AppState
  pendingGuide : List PendingGuide
  pendingImage : List PendingImage
  nextSeq : Nat
deriving Repr

/-- The world before any event. -/
def initialWorld : World :=
  { app := initialState, pendingGuide := [], pendingImage := [], nextSeq := 0 }

/-- Observable events: the user typing into the controlled input
(setLocation), the form submit, and the resolution of an in-flight guide
or image fetch (identified by its position in the pending list). -/
inductive Event where
  | typeLocation (s : String) : Event
  | submit : Event
  | guideResolves (i : Nat) (outcome : FetchOutcome) : Event
  | imageResolves (i : Nat) (outcome : FetchOutcome) : Event
deriving Repr

/-- Small-step interleaving semantics of the component. A resolution
event for an index with no pending request is a no-op (such an event
cannot occur; the case only makes the function total). Resolution applies
the awaited continuation to the current state unconditionally: App.jsx
records no request identity and has no stale-response guard, so the code
run when a fetch resolves is the same whether or not a newer submit has
started since. -/
def stepWorld (apiKey : Option String) (w : World) : Event → World
  | .typeLocation s => { w with app := { w.app with location := s } }
  | .submit =>
    match handleGetGuideSync apiKey w.app with
    | (s1, .requested q) =>
      { w with app := s1,
               pendingGuide := w.pendingGuide ++ [{ query := q, seq := w.nextSeq }],
               nextSeq := w.nextSeq + 1 }
    | (s1, .failed _) => { w with app := s1 }
  | .guideResolves i outcome =>
    if i < w.pendingGuide.length then
      match applyGuideResolution outcome w.app with
      | (s1, some p) =>
        { w with app := s1,
                 pendingGuide := w.pendingGuide.eraseIdx i,
                 pendingImage := w.pendingImage ++ [{ prompt := p }] }
      | (s1, none) =>
        { w with app := s1, pendingGuide := w.pendingGuide.eraseIdx i }
    else w
  | .imageResolves i outcome =>
    if i < w.pendingImage.length then
      { w with app := applyImageResolution outcome w.app,
               pendingImage := w.pendingImage.eraseIdx i }
    else w

/-- Run a sequence of events from the initial world. -/
def run (apiKey : Option String) (events : List Event) : World :=
  events.foldl (stepWorld apiKey) initialWorld

/-- Whether an event is the successful resolution of a guide fetch
(decidable from the carried outcome alone, since the continuation does
not depend on which request resolved). -/
def isGuideSuccessEvent : Event → Bool
  | .guideResolves _ outcome =>
    match processGuideResponse outcome with
    | .ok _ => true
    | .error _ => false
  | _ => false

/-! Concrete fixtures used by witnesses and counterexamples. -/

/-- A guide-endpoint response body wrapping the given text payload in the
expected `candidates[0].content.parts[0].text` shape. -/
def guideBody (text : String) : Json :=
  .obj [("candidates", .arr [.obj [("content",
    .obj [("parts", .arr [.obj [("text", .str text)]])])]])]

/-- A schema-conforming text payload for the query Rome. -/
def romeText : String :=
  "\x7b\"locationName\":\"Rome\",\"mustTryDishes\":[\x7b\"name\":\"Carbonara\",\"description\":\"Pasta\"\x7d],\"etiquetteTip\":\"t\",\"restaurantSuggestion\":\"r\",\"imageGenPrompt\":\"pasta photo\"\x7d"

/-- The parse of `romeText`. -/
def romeGuide : Json :=
  .obj [("locationName", .str "Rome"),
        ("mustTryDishes", .arr [.obj [("name", .str "Carbonara"), ("description", .str "Pasta")]]),
        ("etiquetteTip", .str "t"),
        ("restaurantSuggestion", .str "r"),
        ("imageGenPrompt", .str "pasta photo")]

/-- The text payload of an empty JSON object: parseable, but missing
every required CulinaryGuide field. -/
def emptyObjText : String := "\x7b\x7d"

/-- A parseable text payload carrying only `locationName` (in particular
no `imageGenPrompt`). -/
def noPromptText : String := "\x7b\"locationName\":\"X\"\x7d"

/-- The app state while a guide fetch for Rome is in flight. -/
def loadingState : AppState :=
  { location := "Rome", guide := none, loading := true, error := none,
    imageUrl := none, isImageLoading := false }

/-- A state displaying a previously fetched guide and image, with the
input cleared back to the empty string. -/
def priorShownState : AppState :=
  { location := "", guide := some romeGuide, loading := false, error := none,
    imageUrl := some "data:image/png;base64,QUJD", isImageLoading := false }

/-- A state displaying a previously fetched guide and image, with a new
query typed into the input. -/
def shownKyotoState : AppState :=
  { location := "Kyoto", guide := some romeGuide, loading := false, error := none,
    imageUrl := some "data:image/png;base64,QUJD", isImageLoading := false }

/-- A state displaying a fetched guide while its image fetch is in
flight. -/
def guideShownState : AppState :=
  { location := "Rome", guide := some romeGuide, loading := false, error := none,
    imageUrl := none, isImageLoading := true }

/-- Two submits back to back: Rome's guide fetch is still in flight when
the Kyoto query starts, so the request with sequence number 0 is stale. -/
def twoSubmitsTrace : List Event :=
  [.typeLocation "Rome", .submit, .typeLocation "Kyoto", .submit]

/-- The stale Rome guide fetch resolves successfully after the Kyoto
submit has started. -/
def staleResolveTrace : List Event :=
  twoSubmitsTrace ++ [.guideResolves 0 (.ok (guideBody romeText))]

/-- Claim C10: a submit while the location state is empty mutates only
the `error` field, setting it to the fixed message; `guide`, `imageUrl`,
`loading` and `isImageLoading` all keep their prior values (so a
previously displayed guide and image stay displayed) and no request is
issued. -/
theorem emptySubmit_frame (apiKey : Option String) (s : AppState) (h : s.location = "") :
    handleGetGuideSync apiKey s = ({ s with error := some emptyQueryMessage }, .failed .emptyQuery) := by
  unfold handleGetGuideSync
  rw [if_pos h]

/-- Witness for C10 at a state still displaying a guide and image: only
`error` changes. -/
theorem emptySubmit_frame_witness :
    handleGetGuideSync (some "test-key") priorShownState =
      ({ priorShownState with error := some emptyQueryMessage }, .failed .emptyQuery) :=
  emptySubmit_frame (some "test-key") priorShownState rfl

/-- Claim C7: when the API key is absent (or empty, hence falsy), a
non-empty submit fails synchronously with the distinct internal
missing-credential condition, issues no request, and lands in the
guide-failed state: `error` set (to the generic message), `guide` and
`imageUrl` cleared, `loading` back to false. -/
theorem missingKey_failsWithoutRequest (apiKey : Option String) (s : AppState)
    (hloc : s.location ≠ "") (hkey : keyPresent apiKey = false) :
    handleGetGuideSync apiKey s =
      ({ s with loading := false, error := some guideFailureMessage, guide := none, imageUrl := none },
       .failed .missingCredential) := by
  unfold handleGetGuideSync
  rw [if_neg hloc]
  simp [hkey]

/-- Witness for C7 with no key configured and the query Kyoto. -/
theorem missingKey_failsWithoutRequest_witness :
    handleGetGuideSync none shownKyotoState =
      ({ shownKyotoState with
          loading := false, error := some guideFailureMessage,
          guide := none, imageUrl := none },
       .failed .missingCredential) :=
  missingKey_failsWithoutRequest none shownKyotoState (by decide) rfl

/-- Claim C2 is false as stated: a whitespace-only location is not
rejected. Submitting the single-space location with a key configured
issues a guide request (the pending list grows) and sets no error. -/
theorem whitespaceSubmit_requests_cex :
    (handleGetGuideSync (some "test-key") { initialState with location := " " }).2 = .requested " " ∧
    (handleGetGuideSync (some "test-key") { initialState with location := " " }).1.error = none ∧
    (run (some "test-key") [.typeLocation " ", .submit]).pendingGuide.length = 1 :=
  ⟨rfl, rfl, rfl⟩

/-- Claim C2 (amended): only the exactly-empty location is rejected
before any request — the emptiness check does not trim. An empty submit
issues no request and fails with the internal EmptyQuery condition and
its fixed message; any non-empty location (whitespace-only included),
with a key present, issues a guide request. -/
theorem submit_empty_vs_nonempty (apiKey : Option String) (s : AppState) :
    (s.location = "" →
      (handleGetGuideSync apiKey s).2 = .failed .emptyQuery ∧
      (handleGetGuideSync apiKey s).1.error = some emptyQueryMessage) ∧
    (s.location ≠ "" → keyPresent apiKey = true →
      (handleGetGuideSync apiKey s).2 = .requested s.location) := by
  constructor
  · intro h
    unfold handleGetGuideSync
    rw [if_pos h]
    exact ⟨rfl, rfl⟩
  · intro h hk
    unfold handleGetGuideSync
    rw [if_neg h]
    simp [hk]

/-- Witness for the amended C2: the single-space location issues a
request. -/
theorem submit_empty_vs_nonempty_witness :
    (handleGetGuideSync (some "test-key") { initialState with location := " " }).2 = .requested " " :=
  (submit_empty_vs_nonempty (some "test-key") { initialState with location := " " }).2
    (by decide) rfl

/-- Claim C9 is false as stated: the user-facing message is not the same
for all guide-stage failure subtypes. The EmptyQuery path sets its own
fixed message, which differs from the generic message set by every
thrown failure (here: RequestFailed 500). -/
theorem guideMessages_differ_cex :
    (handleGetGuideSync (some "test-key") initialState).1.error = some emptyQueryMessage ∧
    (handleGetGuideSync (some "test-key") initialState).2 = .failed .emptyQuery ∧
    (applyGuideResolution (.httpError 500) loadingState).1.error = some guideFailureMessage ∧
    emptyQueryMessage ≠ guideFailureMessage :=
  ⟨rfl, rfl, rfl, by decide⟩

/-- Claim C9 (amended): every guide-stage failure subtype except
EmptyQuery (MissingCredential, RequestFailed, MalformedResponse,
InvalidGuidePayload — i.e. everything reaching the catch block) surfaces
as the one generic message; EmptyQuery surfaces its own distinct fixed
message. The subtypes stay distinguishable internally (as `GuideError`
values). -/
theorem guideFailureSurfacing (apiKey : Option String) (s : AppState) (outcome : FetchOutcome) :
    (∀ e : GuideError, processGuideResponse outcome = .error e →
      (applyGuideResolution outcome s).1.error = some guideFailureMessage) ∧
    (s.location ≠ "" → keyPresent apiKey = false →
      (handleGetGuideSync apiKey s).1.error = some guideFailureMessage ∧
      (handleGetGuideSync apiKey s).2 = .failed .missingCredential) ∧
    (s.location = "" →
      (handleGetGuideSync apiKey s).1.error = some emptyQueryMessage ∧
      (handleGetGuideSync apiKey s).2 = .failed .emptyQuery) ∧
    emptyQueryMessage ≠ guideFailureMessage := by
  refine ⟨?_, ?_, ?_, by decide⟩
  · intro e he
    simp [applyGuideResolution, he]
  · intro hloc hkey
    unfold handleGetGuideSync
    rw [if_neg hloc]
    simp [hkey]
  · intro h
    unfold handleGetGuideSync
    rw [if_pos h]
    exact ⟨rfl, rfl⟩

/-- Witness for the amended C9: an HTTP 500 guide failure surfaces the
generic message. -/
theorem guideFailureSurfacing_witness :
    (applyGuideResolution (.httpError 500) loadingState).1.error = some guideFailureMessage :=
  (guideFailureSurfacing (some "test-key") loadingState (.httpError 500)).1
    (.requestFailed 500) rfl

/-- Claim C3 is false as stated: a text payload parsing to the empty
JSON object — missing all five required CulinaryGuide fields — is not
treated as invalid; it is stored as the guide with no error. -/
theorem unvalidatedGuideStored_cex :
    jsonParse emptyObjText = some (.obj []) ∧
    (Json.obj []).getField "locationName" = none ∧
    processGuideResponse (.ok (guideBody emptyObjText)) = .ok (.obj []) ∧
    (applyGuideResolution (.ok (guideBody emptyObjText)) loadingState).1.guide = some (.obj []) ∧
    (applyGuideResolution (.ok (guideBody emptyObjText)) loadingState).1.error = none :=
  ⟨rfl, rfl, rfl, rfl, rfl⟩

/-- Claim C3 (amended): no schema validation is performed. Any text
payload that parses as JSON is stored as the guide unconditionally —
required fields missing or not — with no error; only a text payload that
fails to parse is treated as invalid (InvalidGuidePayload internally,
generic message, guide left as it was). -/
theorem parsedGuideStoredWithoutValidation (s : AppState) (body t : Json)
    (h1 : extractGuideText body = some t) (h2 : t.truthy = true) :
    (∀ j : Json, jsonParse t.jsToString = some j →
      processGuideResponse (.ok body) = .ok j ∧
      (applyGuideResolution (.ok body) s).1.guide = some j ∧
      (applyGuideResolution (.ok body) s).1.error = s.error) ∧
    (jsonParse t.jsToString = none →
      processGuideResponse (.ok body) = .error .invalidGuidePayload ∧
      (applyGuideResolution (.ok body) s).1.guide = s.guide ∧
      (applyGuideResolution (.ok body) s).1.error = some guideFailureMessage) := by
  constructor
  · intro j hj
    have hp : processGuideResponse (.ok body) = .ok j := by
      simp [processGuideResponse, h1, h2, hj]
    refine ⟨hp, ?_, ?_⟩ <;>
    · simp only [applyGuideResolution, hp]
      cases hg : j.getField "imageGenPrompt" with
      | none => simp
      | some p =>
        by_cases ht : p.truthy <;> simp [ht]
  · intro hj
    have hp : processGuideResponse (.ok body) = .error .invalidGuidePayload := by
      simp [processGuideResponse, h1, h2, hj]
    exact ⟨hp, by simp [applyGuideResolution, hp], by simp [applyGuideResolution, hp]⟩

/-- Witness for the amended C3: the empty-object payload is stored as
the guide. -/
theorem parsedGuideStoredWithoutValidation_witness :
    (applyGuideResolution (.ok (guideBody emptyObjText)) loadingState).1.guide = some (.obj []) :=
  ((parsedGuideStoredWithoutValidation loadingState (guideBody emptyObjText)
      (.str emptyObjText) rfl rfl).1 (.obj []) rfl).2.1

/-- Claim C4 is false as stated: the guide request can succeed without
the image request being invoked. A text payload carrying only
`locationName` parses, is stored as the guide, and — its
`imageGenPrompt` being absent, hence falsy — no image request is issued
(no spawned prompt, empty pending-image list). -/
theorem guideSuccessNoPrompt_noImage_cex :
    processGuideResponse (.ok (guideBody noPromptText)) = .ok (.obj [("locationName", .str "X")]) ∧
    (applyGuideResolution (.ok (guideBody noPromptText)) loadingState).2 = none ∧
    (run (some "test-key")
        [.typeLocation "X", .submit, .guideResolves 0 (.ok (guideBody noPromptText))]).app.guide
      = some (.obj [("locationName", .str "X")]) ∧
    (run (some "test-key")
        [.typeLocation "X", .submit, .guideResolves 0 (.ok (guideBody noPromptText))]).pendingImage
      = [] :=
  ⟨rfl, rfl, rfl, rfl⟩

/-- Claim C4 (amended): an image request is issued by a guide resolution
if and only if the resolution succeeds and the parsed guide's
`imageGenPrompt` field is truthy (present and non-empty); in particular
it is never issued without a successful guide result, but a successful
guide with a missing or falsy `imageGenPrompt` issues none. -/
theorem imageRequest_iff_guideSuccess_truthyPrompt (outcome : FetchOutcome) (s : AppState) :
    ((applyGuideResolution outcome s).2).isSome = true ↔
      ∃ j : Json, processGuideResponse outcome = .ok j ∧
        truthyOpt (j.getField "imageGenPrompt") = true := by
  cases hp : processGuideResponse outcome with
  | error e =>
    simp only [applyGuideResolution, hp]
    simp
  | ok j =>
    simp only [applyGuideResolution, hp]
    cases hg : j.getField "imageGenPrompt" with
    | none => simp [truthyOpt, hg]
    | some p =>
      by_cases ht : p.truthy <;> simp [ht, truthyOpt, hg]

/-- Witness for the amended C4: a schema-conforming payload with a
non-empty prompt issues an image request. -/
theorem imageRequest_iff_guideSuccess_truthyPrompt_witness :
    ((applyGuideResolution (.ok (guideBody romeText)) loadingState).2).isSome = true :=
  (imageRequest_iff_guideSuccess_truthyPrompt (.ok (guideBody romeText)) loadingState).mpr
    ⟨romeGuide, rfl, rfl⟩

/-- Guide resolutions that issue an image request have just cleared
`imageUrl` (the synchronous prelude of handleGenerateImage). -/
theorem spawn_imageUrl_none (g : FetchOutcome) (s0 : AppState) (p : Json)
    (h : (applyGuideResolution g s0).2 = some p) :
    (applyGuideResolution g s0).1.imageUrl = none := by
  cases hp : processGuideResponse g with
  | error e =>
    simp only [applyGuideResolution, hp] at h
    exact Option.noConfusion h
  | ok j =>
    simp only [applyGuideResolution, hp] at h ⊢
    cases hg : j.getField "imageGenPrompt" with
    | none => simp [hg] at h
    | some q =>
      by_cases ht : q.truthy
      · simp [hg, ht]
      · simp [hg, ht] at h

/-- Claim C5: a failing image resolution (non-ok status, or a body
without a usable prediction) only clears `isImageLoading`; it never sets
`error`, never touches `guide`, and leaves every other field — including
`imageUrl`, cleared when the request was issued — unchanged. -/
theorem imageFailure_frame (outcome : FetchOutcome) (s : AppState) (e : ImageError)
    (h : processImageResponse outcome = .error e) :
    applyImageResolution outcome s = { s with isImageLoading := false } ∧
    (∀ (g : FetchOutcome) (s0 : AppState) (p : Json),
      (applyGuideResolution g s0).2 = some p →
      (applyImageResolution outcome (applyGuideResolution g s0).1).imageUrl = none) := by
  have hframe : ∀ s2 : AppState, applyImageResolution outcome s2 = { s2 with isImageLoading := false } := by
    intro s2
    simp [applyImageResolution, h]
  refine ⟨hframe s, fun g s0 p hp => ?_⟩
  rw [hframe]
  exact spawn_imageUrl_none g s0 p hp

/-- Witness for C5: an empty predictions list after a displayed guide
clears only the loading flag — the guide and the absent error survive. -/
theorem imageFailure_frame_witness :
    applyImageResolution (.ok (.obj [("predictions", .arr [])])) guideShownState =
      { guideShownState with isImageLoading := false } :=
  (imageFailure_frame (.ok (.obj [("predictions", .arr [])])) guideShownState
    .invalidImagePayload rfl).1

/-- Claim C6: a guide-stage failure after a non-empty submit (with a key
present) replaces any prior guide/image state at the submit, and the
failing resolution sets the error, leaves the guide and image absent,
clears loading, and issues no image request. -/
theorem guideFailure_finalState (apiKey : Option String) (s : AppState)
    (outcome : FetchOutcome) (e : GuideError)
    (hloc : s.location ≠ "") (hkey : keyPresent apiKey = true)
    (hfail : processGuideResponse outcome = .error e) :
    (handleGetGuideSync apiKey s).2 = .requested s.location ∧
    (handleGetGuideSync apiKey s).1.guide = none ∧
    (handleGetGuideSync apiKey s).1.imageUrl = none ∧
    (applyGuideResolution outcome (handleGetGuideSync apiKey s).1).1.error
      = some guideFailureMessage ∧
    (applyGuideResolution outcome (handleGetGuideSync apiKey s).1).1.guide = none ∧
    (applyGuideResolution outcome (handleGetGuideSync apiKey s).1).1.imageUrl = none ∧
    (applyGuideResolution outcome (handleGetGuideSync apiKey s).1).1.loading = false ∧
    (applyGuideResolution outcome (handleGetGuideSync apiKey s).1).2 = none := by
  have hs : handleGetGuideSync apiKey s =
      ({ s with loading := true, error := none, guide := none, imageUrl := none },
       .requested s.location) := by
    unfold handleGetGuideSync
    rw [if_neg hloc]
    simp [hkey]
  rw [hs]
  simp [applyGuideResolution, hfail]

/-- Witness for C6: an HTTP 500 guide failure from a state still showing
the previous guide and image ends with error set, guide and image
absent, and no image request. -/
theorem guideFailure_finalState_witness :
    (handleGetGuideSync (some "test-key") shownKyotoState).1.guide = none ∧
    (applyGuideResolution (.httpError 500)
        (handleGetGuideSync (some "test-key") shownKyotoState).1).1.error
      = some guideFailureMessage :=
  ⟨(guideFailure_finalState (some "test-key") shownKyotoState (.httpError 500)
      (.requestFailed 500) (by decide) rfl rfl).2.1,
   (guideFailure_finalState (some "test-key") shownKyotoState (.httpError 500)
      (.requestFailed 500) (by decide) rfl rfl).2.2.2.1⟩

/-- Claim C1 is false as stated: stale responses are not discarded.
After the Rome submit is superseded by the Kyoto submit (the pending
request with sequence number 0 is stale, issued for Rome while the
current query is Kyoto), the stale guide response resolving does mutate
state: it overwrites the newer query's guide, flips its loading flag off,
and even starts an image request from the stale guide's prompt. -/
theorem staleResponseOverwrites_cex :
    (run (some "test-key") twoSubmitsTrace).pendingGuide =
      [{ query := "Rome", seq := 0 }, { query := "Kyoto", seq := 1 }] ∧
    (run (some "test-key") twoSubmitsTrace).app.location = "Kyoto" ∧
    (run (some "test-key") twoSubmitsTrace).app.guide = none ∧
    (run (some "test-key") twoSubmitsTrace).app.loading = true ∧
    (run (some "test-key") staleResolveTrace).app.guide = some romeGuide ∧
    (run (some "test-key") staleResolveTrace).app.loading = false ∧
    (run (some "test-key") staleResolveTrace).app.isImageLoading = true ∧
    (run (some "test-key") staleResolveTrace).pendingImage = [{ prompt := .str "pasta photo" }] ∧
    (run (some "test-key") staleResolveTrace).app ≠ (run (some "test-key") twoSubmitsTrace).app := by
  refine ⟨rfl, rfl, rfl, rfl, rfl, rfl, rfl, rfl, fun h => ?_⟩
  have h2 := congrArg AppState.guide h
  rw [show (run (some "test-key") staleResolveTrace).app.guide = some romeGuide from rfl,
      show (run (some "test-key") twoSubmitsTrace).app.guide = none from rfl] at h2
  exact Option.noConfusion h2

/-- Claim C1 (amended): there is no stale-response guard. Resolving any
in-flight guide request — stale or current — applies the same state
mutation to the current app state, so a stale response that resolves
after a newer submit overwrites the newer query's state exactly as a
current one would. -/
theorem guideResolution_ignores_staleness (apiKey : Option String) (w : World)
    (i : Nat) (outcome : FetchOutcome) (h : i < w.pendingGuide.length) :
    (stepWorld apiKey w (.guideResolves i outcome)).app =
      (applyGuideResolution outcome w.app).1 := by
  simp only [stepWorld]
  rw [if_pos h]
  rcases hres : applyGuideResolution outcome w.app with ⟨s1, sp⟩
  cases sp <;> simp [hres]

/-- Witness for the amended C1: the stale Rome resolution after the
Kyoto submit mutates the app state exactly as applyGuideResolution
prescribes. -/
theorem guideResolution_ignores_staleness_witness :
    (stepWorld (some "test-key") (run (some "test-key") twoSubmitsTrace)
        (.guideResolves 0 (.ok (guideBody romeText)))).app =
      (applyGuideResolution (.ok (guideBody romeText))
        (run (some "test-key") twoSubmitsTrace).app).1 :=
  guideResolution_ignores_staleness (some "test-key") (run (some "test-key") twoSubmitsTrace)
    0 (.ok (guideBody romeText)) (by decide)

/-- A submit never creates an image: if `imageUrl` was absent it stays
absent through the synchronous part of handleGetGuide. -/
theorem submit_keeps_imageUrl_none (apiKey : Option String) (s : AppState)
    (h : s.imageUrl = none) : (handleGetGuideSync apiKey s).1.imageUrl = none := by
  unfold handleGetGuideSync
  by_cases hloc : s.location = ""
  · rw [if_pos hloc]
    simpa using h
  · rw [if_neg hloc]
    by_cases hk : keyPresent apiKey <;> simp [hk]

/-- A step by an event that is not a successful guide resolution keeps
the image absent and the pending-image list empty. -/
theorem stepPreserves_noImage (apiKey : Option String) (w : World) (e : Event)
    (hImg : w.app.imageUrl = none) (hPend : w.pendingImage = [])
    (he : isGuideSuccessEvent e = false) :
    (stepWorld apiKey w e).app.imageUrl = none ∧
    (stepWorld apiKey w e).pendingImage = [] := by
  cases e with
  | typeLocation s2 => exact ⟨hImg, hPend⟩
  | submit =>
    simp only [stepWorld]
    rcases hs : handleGetGuideSync apiKey w.app with ⟨s1, eff⟩
    have h1 : s1.imageUrl = none := by
      have h2 := submit_keeps_imageUrl_none apiKey w.app hImg
      rw [hs] at h2
      exact h2
    cases eff <;> simp [h1, hPend]
  | guideResolves i outcome =>
    have hfail : ∃ err : GuideError, processGuideResponse outcome = .error err := by
      simp only [isGuideSuccessEvent] at he
      cases hp : processGuideResponse outcome with
      | ok j => rw [hp] at he; exact absurd he (by simp)
      | error err => exact ⟨err, rfl⟩
    rcases hfail with ⟨err, hp⟩
    simp only [stepWorld]
    by_cases hlt : i < w.pendingGuide.length
    · rw [if_pos hlt]
      simp [applyGuideResolution, hp, hImg, hPend]
    · rw [if_neg hlt]
      exact ⟨hImg, hPend⟩
  | imageResolves i outcome =>
    simp only [stepWorld]
    rw [if_neg (by simp [hPend])]
    exact ⟨hImg, hPend⟩

/-- A run containing no successful guide resolution keeps the image
absent and the pending-image list empty. -/
theorem noGuideSuccess_noImage (apiKey : Option String) (events : List Event) (w : World)
    (hImg : w.app.imageUrl = none) (hPend : w.pendingImage = [])
    (h : ∀ e ∈ events, isGuideSuccessEvent e = false) :
    (events.foldl (stepWorld apiKey) w).app.imageUrl = none ∧
    (events.foldl (stepWorld apiKey) w).pendingImage = [] := by
  induction events generalizing w with
  | nil => exact ⟨hImg, hPend⟩
  | cons e es ih =>
    rw [List.foldl_cons]
    have hstep := stepPreserves_noImage apiKey w e hImg hPend (h e (List.mem_cons_self e es))
    exact ih (stepWorld apiKey w e) hstep.1 hstep.2 (fun e2 h2 => h e2 (List.mem_cons_of_mem e h2))

/-- Claim C8: every request-starting (non-empty) submit discards the
generated image at its start, whatever happens later; and in any
execution an image can only be present after some guide fetch has
resolved successfully — image requests exist only downstream of a
successful CulinaryGuide. -/
theorem imageLifecycle (apiKey : Option String) :
    (∀ s : AppState, s.location ≠ "" → (handleGetGuideSync apiKey s).1.imageUrl = none) ∧
    (∀ events : List Event, (run apiKey events).app.imageUrl.isSome = true →
      ∃ e ∈ events, isGuideSuccessEvent e = true) := by
  constructor
  · intro s h
    unfold handleGetGuideSync
    rw [if_neg h]
    by_cases hk : keyPresent apiKey <;> simp [hk]
  · intro events h
    by_contra hne
    push_neg at hne
    have hall : ∀ e ∈ events, isGuideSuccessEvent e = false := by
      intro e hmem
      simpa using hne e hmem
    have hinv := noGuideSuccess_noImage apiKey events initialWorld rfl rfl hall
    unfold run at h
    rw [hinv.1] at h
    simp at h

/-- Witness for C8 at a state still displaying the previous image: the
new submit discards it. -/
theorem imageLifecycle_witness :
    (handleGetGuideSync (some "test-key") shownKyotoState).1.imageUrl = none :=
  (imageLifecycle (some "test-key")).1 shownKyotoState (by decide)

end CulinaryCompass
